import Mathlib

/-!
Verification of the OVHcloud DNS provider of external-dns-management.

This file shallowly embeds the zone state synchronization engine:
the remote access layer (`access.go`: `getZones`, `createRecordSet`,
`getRecordSet`, `updateRecordSet`, `deleteRecordSet`, `getRecordSets`,
`refreshZone`) and the handler (`dnsinfo.go`: `getZones`, `getZoneState`,
`executeRequests`).  Remote behaviour is a parameter (`Remote`); every
operation returns its result together with the list of remote calls it
issued, so call-count properties are statable.
-/

namespace OvhDNS

/-- Wire record entity (`recordInfo` in `access.go`): numeric id assigned by
the remote system, field type, relative owner name (sub-domain), target
value, TTL and zone. -/
structure RecordInfo where
  id : Int
  fieldType : String
  subDomain : String
  target : String
  ttl : Int
  zone : String
deriving Repr, DecidableEq

/-- Zone metadata object (`zoneInfo` in `access.go`). -/
structure ZoneInfo where
  dnssecSupported : Bool
  hasDnsAnycast : Bool
  lastUpdate : String
  name : String
  nameServers : List String
deriving Repr, DecidableEq

/-- One remote API call, as recorded in a trace. -/
inductive RemoteCall where
  | listZones
  | getZoneInfo (zone : String)
  | listRecords (zone subDomain fieldType : String)
  | getRecord (zone : String) (id : Int)
  | createRecord (zone subDomain target fieldType : String) (ttl : Int)
  | updateRecord (zone : String) (id : Int) (ttl : Int)
  | deleteRecord (zone : String) (id : Int)
  | refreshZone (zone : String)
deriving Repr, DecidableEq

/-- Behaviour of the remote REST API: for each primitive, the outcome the
remote produces.  Failures model transport or HTTP errors. -/
structure Remote where
  listZonesR : Except String (List String)
  getZoneInfoR : String → Except String ZoneInfo
  listRecordsR : String → String → String → Except String (List Int)
  getRecordR : String → Int → Except String RecordInfo
  createRecordR : String → RecordInfo → Except String Unit
  updateRecordR : String → Int → Int → Except String Unit
  deleteRecordR : String → Int → Except String Unit
  refreshZoneR : String → Except String Unit

/-- Per-record fetch loop of `getRecordSets` (`access.go:167-177`): fetch each
record id individually, aborting on the first failure. -/
def fetchRecords (rm : Remote) (zone : String) :
    List Int → Except String (List RecordInfo) × List RemoteCall
  | [] => (.ok [], [])
  | i :: rest =>
    match rm.getRecordR zone i with
    | .error e => (.error ("Error calling GET record: " ++ e), [.getRecord zone i])
    | .ok ri =>
      match fetchRecords rm zone rest with
      | (.error e, t) => (.error e, .getRecord zone i :: t)
      | (.ok rs, t) => (.ok (ri :: rs), .getRecord zone i :: t)

/-- `getRecordSets` (`access.go:152-180`): list the record ids matching the
(subDomain, fieldType) filter, then fetch each record body. -/
def getRecordSets (rm : Remote) (zone subDomain fieldType : String) :
    Except String (List RecordInfo) × List RemoteCall :=
  match rm.listRecordsR zone subDomain fieldType with
  | .error e =>
    (.error ("Error calling GET records: " ++ e), [.listRecords zone subDomain fieldType])
  | .ok ids =>
    match fetchRecords rm zone ids with
    | (res, t) => (res, .listRecords zone subDomain fieldType :: t)

/-- `getRecordSet` (`access.go:80-93`): list the records for (subDomain,
fieldType) and return the first one whose target equals the requested value;
`none` when no record matches. -/
def getRecordSet (rm : Remote) (zone subDomain value fieldType : String) :
    Except String (Option RecordInfo) × List RemoteCall :=
  match getRecordSets rm zone subDomain fieldType with
  | (.error e, t) => (.error e, t)
  | (.ok recs, t) => (.ok (recs.find? (fun r => r.target == value)), t)

/-- `createRecordSet` (`access.go:59-78`): POST one new record. -/
def createRecordSet (rm : Remote) (zone name value fieldType : String) (ttl : Int) :
    Except String Unit × List RemoteCall :=
  match rm.createRecordR zone ⟨0, fieldType, name, value, ttl, ""⟩ with
  | .error e =>
    (.error ("Error calling POST record: " ++ e), [.createRecord zone name value fieldType ttl])
  | .ok _ => (.ok (), [.createRecord zone name value fieldType ttl])

/-- Error message built by `updateRecordSet` when the lookup finds no
matching record (`access.go:101-108`). -/
def updateMissingMsg (zone subDomain fieldType : String) : String :=
  "Could not find record for zone " ++ zone ++ ", subDomain " ++ subDomain ++
    " and type " ++ fieldType

/-- `updateRecordSet` (`access.go:95-126`): look up the existing record by
(subDomain, fieldType, target); when none is found the function returns a
could-not-find-record error; otherwise PUT the new TTL on the record id. -/
def updateRecordSet (rm : Remote) (zone subDomain value fieldType : String) (ttl : Int) :
    Except String Unit × List RemoteCall :=
  match getRecordSet rm zone subDomain value fieldType with
  | (.error e, t) => (.error e, t)
  | (.ok none, t) => (.error (updateMissingMsg zone subDomain fieldType), t)
  | (.ok (some rec), t) =>
    match rm.updateRecordR zone rec.id ttl with
    | .error e => (.error ("Error calling PUT record: " ++ e), t ++ [.updateRecord zone rec.id ttl])
    | .ok _ => (.ok (), t ++ [.updateRecord zone rec.id ttl])

/-- `deleteRecordSet` (`access.go:128-150`): look up the existing record by
(subDomain, fieldType, target); when none is found, succeed without issuing
any DELETE; otherwise DELETE that record id. -/
def deleteRecordSet (rm : Remote) (zone subDomain value fieldType : String) :
    Except String Unit × List RemoteCall :=
  match getRecordSet rm zone subDomain value fieldType with
  | (.error e, t) => (.error e, t)
  | (.ok none, t) => (.ok (), t)
  | (.ok (some rec), t) =>
    match rm.deleteRecordR zone rec.id with
    | .error e => (.error ("Error calling DELETE record: " ++ e), t ++ [.deleteRecord zone rec.id])
    | .ok _ => (.ok (), t ++ [.deleteRecord zone rec.id])

/-- `refreshZone` (`access.go:183-195`): POST a zone refresh. -/
def refreshZoneCall (rm : Remote) (zone : String) : Except String Unit × List RemoteCall :=
  match rm.refreshZoneR zone with
  | .error e => (.error ("Error calling POST refresh: " ++ e), [.refreshZone zone])
  | .ok _ => (.ok (), [.refreshZone zone])

/-- Per-zone metadata fetch loop of access-layer `getZones`
(`access.go:46-54`). -/
def fetchZoneInfos (rm : Remote) : List String → Except String (List ZoneInfo)
  | [] => .ok []
  | z :: rest =>
    match rm.getZoneInfoR z with
    | .error e => .error ("Error calling GET zone " ++ z ++ ": " ++ e)
    | .ok zi =>
      match fetchZoneInfos rm rest with
      | .error e => .error e
      | .ok zs => .ok (zi :: zs)

/-- Access-layer `getZones` (`access.go:37-57`): list all zone names, then
fetch each zone's metadata; any failure aborts the whole listing. -/
def accessGetZones (rm : Remote) : Except String (List ZoneInfo) :=
  match rm.listZonesR with
  | .error e => .error ("Error calling GET zones: " ++ e)
  | .ok zs => fetchZoneInfos rm zs

/-- Trailing-dot test on the underlying character list (kept elementary so
that concrete evaluations reduce). -/
def endsWithDot (s : String) : Bool :=
  match s.data.getLast? with
  | some c => c == '.'
  | none => false

/-- Modelled from the spec: `dns.NormalizeHostname` is not under src/.  Per
the spec, hostnames are normalized to a canonical absolute form independent
of whether the input carried a trailing dot; we model the canonical form as
the name with a trailing dot. -/
def normalizeHostname (s : String) : String :=
  if endsWithDot s then s else s ++ "."

/-- Modelled from the spec: `dns.AlignHostname` is not under src/.  Per the
spec the owner name is aligned to the canonical absolute form with a
trailing dot. -/
def alignHostname (s : String) : String :=
  if endsWithDot s then s else s ++ "."

/-- Hosted zone value built by handler `getZones`
(`dnsinfo.go:303-310`, `NewDNSHostedZone`). -/
structure DNSHostedZone where
  providerType : String
  id : String
  domain : String
  key : String
  forwarded : List String
  isPrivate : Bool
deriving Repr, DecidableEq

/-- Forwarded-name loop of handler `getZones` (`dnsinfo.go:296-301`): for
each NS record, build the name `subDomain ++ "." ++ zone` and record its
normalization whenever that name differs from the zone apex name. -/
def forwardedNames (records : List RecordInfo) (apex : String) : List String :=
  match records with
  | [] => []
  | r :: rest =>
    let name := r.subDomain ++ "." ++ r.zone
    if name != apex then normalizeHostname name :: forwardedNames rest apex
    else forwardedNames rest apex

/-- Per-zone body of handler `getZones` (`dnsinfo.go:289-313`): fetch the
zone's NS records, derive the forwarded names, build the hosted zone value;
any NS lookup failure aborts the whole listing. -/
def buildHostedZones (rm : Remote) : List ZoneInfo → Except String (List DNSHostedZone)
  | [] => .ok []
  | z :: rest =>
    match (getRecordSets rm z.name "" "NS").1 with
    | .error e => .error ("listing DNS zone records failed for zone " ++ z.name ++ ": " ++ e)
    | .ok records =>
      match buildHostedZones rm rest with
      | .error e => .error e
      | .ok hzs =>
        .ok ({ providerType := "ovhcloud-dns", id := z.name,
               domain := normalizeHostname z.name, key := z.name,
               forwarded := forwardedNames records z.name,
               isPrivate := false } :: hzs)

/-- Handler `getZones` (`dnsinfo.go:282-316`): list all zones, derive each
zone's forwarded names from its NS records. -/
def handlerGetZones (rm : Remote) : Except String (List DNSHostedZone) :=
  match accessGetZones rm with
  | .error e => .error ("listing DNS zones failed: " ++ e)
  | .ok zones => buildHostedZones rm zones

/-- DNS semantics of a wire record's owner name, following the spec's
wording: the owner of a record with empty sub-domain is the zone apex
itself, otherwise `subDomain ++ "." ++ zone`.  Stated for comparison with
the code's computation in `forwardedNames`. -/
def ownerName (r : RecordInfo) : String :=
  if r.subDomain = "" then r.zone else r.subDomain ++ "." ++ r.zone

/-- Forwarded-name list as the spec's words describe it: the normalized
owner names of the NS records whose owner name differs from the zone apex
name.  Stated for comparison with `forwardedNames`. -/
def specForwardedNames (records : List RecordInfo) (apex : String) : List String :=
  (records.filter (fun r => ownerName r != apex)).map (fun r => normalizeHostname (ownerName r))

/-- Single record value of an abstract record set (`dns.Record`). -/
structure DnsRecord where
  value : String
deriving Repr, DecidableEq

/-- Abstract record set (`dns.RecordSet`): type, TTL, record values. -/
structure RecordSet where
  rtype : String
  ttl : Int
  records : List DnsRecord
deriving Repr, DecidableEq

/-- Remote record set as delivered to the `recordSetHandler` callback of
handler `getZoneState` (`dnsinfo.go:326`): owner name, type, TTL and the
list of raw value strings. -/
structure RemoteRecordSet where
  name : String
  rtype : String
  ttl : Int
  records : List String
deriving Repr, DecidableEq

/-- Record-set conversion done by the `recordSetHandler` callback
(`dnsinfo.go:329-336`): CNAME values are normalized, other values are kept
verbatim. -/
def convertRecordSet (r : RemoteRecordSet) : RecordSet :=
  { rtype := r.rtype, ttl := r.ttl,
    records := r.records.map (fun v =>
      ⟨if r.rtype == "CNAME" then normalizeHostname v else v⟩) }

/-- The record types synchronized by the engine (`dns.RS_A`, `dns.RS_CNAME`,
`dns.RS_TXT` in the switch at `dnsinfo.go:328`). -/
def supportedType (t : String) : Bool :=
  t == "A" || t == "CNAME" || t == "TXT"

/-- Modelled from the spec: `dns.DNSSets.AddRecordSetFromProvider` is not
under src/.  Per the spec, the DNSSet collection maps trailing-dot
normalized hostnames to one record set per type, built by repeated adds; an
add replaces the record set previously held at the same (key, type). -/
def addRecordSetFromProvider (sets : List (String × RecordSet)) (name : String)
    (rs : RecordSet) : List (String × RecordSet) :=
  let key := normalizeHostname name
  (sets.filter (fun p => !(p.1 == key && p.2.rtype == rs.rtype))) ++ [(key, rs)]

/-- Iteration of the `recordSetHandler` callback over the zone content
(`dnsinfo.go:326-343`): supported record sets are converted and merged,
unsupported ones are silently dropped. -/
def getZoneStateLoop (sets : List (String × RecordSet)) :
    List RemoteRecordSet → List (String × RecordSet)
  | [] => sets
  | r :: rest =>
    if supportedType r.rtype then
      getZoneStateLoop (addRecordSetFromProvider sets r.name (convertRecordSet r)) rest
    else getZoneStateLoop sets rest

/-- Handler `getZoneState` (`dnsinfo.go:323-348`): fold the remote zone
content into the DNSSet collection. -/
def getZoneState (input : List RemoteRecordSet) : List (String × RecordSet) :=
  getZoneStateLoop [] input

/-- Change request action (`provider.R_CREATE`, `provider.R_UPDATE`,
`provider.R_DELETE`). -/
inductive RAction where
  | create
  | update
  | delete
deriving Repr, DecidableEq

/-- Change request (`provider.ChangeRequest`): an action and the targeted
record set with its owner name. -/
structure ChangeRequest where
  action : RAction
  name : String
  rset : RecordSet
deriving Repr, DecidableEq

/-- Modelled from the spec: `dns.MapToProvider` is not under src/.  Per the
spec it maps the abstract record set to the wire representation, computing
the zone-relative owner name; we model the change request as already
carrying the owner name and wire record set, so the mapping returns them
unchanged. -/
def mapToProvider (req : ChangeRequest) : String × RecordSet :=
  (req.name, req.rset)

/-- How the request loop of `executeRequests` ends: all requests processed;
stopped by the bare `return` taken when a mapped record set has zero records
(`dnsinfo.go:378-380`); or stopped by a failed remote call
(`dnsinfo.go:388-398`). -/
inductive LoopExit where
  | completed
  | abortedOk
  | abortedErr (e : String)
deriving Repr, DecidableEq

/-- Outcome of (part of) the request loop: how it ended, the remote calls it
issued, the `updated` flag (`dnsinfo.go:374,384`), and a ghost count of the
record-level write dispatches that returned success. -/
structure LoopOut where
  exit : LoopExit
  trace : List RemoteCall
  updated : Bool
  okWrites : Nat
deriving Repr, DecidableEq

/-- Error wrapping applied by `executeRequests` around a failed dispatch
(`dnsinfo.go:389,393,397`). -/
def wrapActionErr (act : RAction) (zoneId e : String) : String :=
  match act with
  | .create => "Create DNS zone record failed for " ++ zoneId ++ ": " ++ e
  | .update => "Update DNS zone record failed for " ++ zoneId ++ ": " ++ e
  | .delete => "Delete DNS zone record failed for " ++ zoneId ++ ": " ++ e

/-- Record-level dispatch of `executeRequests` (`dnsinfo.go:386-399`): one
access-layer operation per record value, selected by the request action. -/
def dispatchRecord (rm : Remote) (zoneId : String) (act : RAction)
    (name value rtype : String) (ttl : Int) : Except String Unit × List RemoteCall :=
  match act with
  | .create => createRecordSet rm zoneId name value rtype ttl
  | .update => updateRecordSet rm zoneId name value rtype ttl
  | .delete => deleteRecordSet rm zoneId name value rtype

/-- Inner record loop of `executeRequests` (`dnsinfo.go:383-400`): the
`updated` flag is set before each dispatch; a failed dispatch aborts the
whole function with the wrapped error. -/
def execRecords (rm : Remote) (zoneId : String) (act : RAction) (name rtype : String)
    (ttl : Int) (updated : Bool) (okW : Nat) : List DnsRecord → LoopOut
  | [] => ⟨.completed, [], updated, okW⟩
  | r :: rest =>
    match dispatchRecord rm zoneId act name r.value rtype ttl with
    | (.error e, t) => ⟨.abortedErr (wrapActionErr act zoneId e), t, true, okW⟩
    | (.ok _, t) =>
      let out := execRecords rm zoneId act name rtype ttl true (okW + 1) rest
      ⟨out.exit, t ++ out.trace, out.updated, out.okWrites⟩

/-- Outer request loop of `executeRequests` (`dnsinfo.go:375-401`): map each
request, take the bare `return` when the mapped record set has zero records,
otherwise dispatch every record and abort on the first error. -/
def execLoop (rm : Remote) (zoneId : String) (updated : Bool) (okW : Nat) :
    List ChangeRequest → LoopOut
  | [] => ⟨.completed, [], updated, okW⟩
  | req :: rest =>
    let name := alignHostname (mapToProvider req).1
    let rset := (mapToProvider req).2
    if rset.records.isEmpty then ⟨.abortedOk, [], updated, okW⟩
    else
      let out := execRecords rm zoneId req.action name rset.rtype rset.ttl updated okW rset.records
      match out.exit with
      | .abortedErr e => ⟨.abortedErr e, out.trace, out.updated, out.okWrites⟩
      | _ =>
        let out2 := execLoop rm zoneId out.updated out.okWrites rest
        ⟨out2.exit, out.trace ++ out2.trace, out2.updated, out2.okWrites⟩

/-- Engine configuration relevant to the change executor: the dry-run
flag (`h.config.DryRun`, `dnsinfo.go:369`). -/
structure Config where
  dryRun : Bool
deriving Repr, DecidableEq

/-- Outcome of `executeRequests`: the returned error (if any), the remote
calls issued, and the ghost count of successful write dispatches. -/
structure ExecOutcome where
  err : Option String
  trace : List RemoteCall
  okWrites : Nat
deriving Repr, DecidableEq

/-- Tail of `executeRequests` after the request loop (`dnsinfo.go:403-409`):
a loop stopped by an error returns that error; a loop stopped by the bare
`return` returns success; a completed loop issues one zone refresh when the
`updated` flag is set. -/
def finishRequests (rm : Remote) (zoneId : String) (lo : LoopOut) : ExecOutcome :=
  match lo.exit with
  | .abortedErr e => ⟨some e, lo.trace, lo.okWrites⟩
  | .abortedOk => ⟨none, lo.trace, lo.okWrites⟩
  | .completed =>
    if lo.updated then
      match refreshZoneCall rm zoneId with
      | (.error e, t) =>
        ⟨some ("Refesh DNS zone failed for " ++ zoneId ++ ": " ++ e), lo.trace ++ t, lo.okWrites⟩
      | (.ok _, t) => ⟨none, lo.trace ++ t, lo.okWrites⟩
    else ⟨none, lo.trace, lo.okWrites⟩

/-- `executeRequests` (`dnsinfo.go:368-410`): short-circuit in dry-run mode;
run the request loop; when the loop completed and the `updated` flag is set,
issue one zone refresh. -/
def executeRequests (cfg : Config) (rm : Remote) (zoneId : String)
    (reqs : List ChangeRequest) : ExecOutcome :=
  if cfg.dryRun then ⟨none, [], 0⟩
  else finishRequests rm zoneId (execLoop rm zoneId false 0 reqs)

/-- Predicate for refresh events in a trace. -/
def isRefreshCall : RemoteCall → Bool
  | .refreshZone _ => true
  | _ => false

/-- Predicate for DELETE events in a trace. -/
def isDeleteCall : RemoteCall → Bool
  | .deleteRecord _ _ => true
  | _ => false

/-- Predicate for PUT (update) events in a trace. -/
def isUpdateCall : RemoteCall → Bool
  | .updateRecord _ _ _ => true
  | _ => false

/-- Number of refresh calls in a trace. -/
def refreshCount (t : List RemoteCall) : Nat := (t.filter isRefreshCall).length

/-- Number of DELETE calls in a trace. -/
def deleteCount (t : List RemoteCall) : Nat := (t.filter isDeleteCall).length

/-- Number of PUT (update) calls in a trace. -/
def updateCount (t : List RemoteCall) : Nat := (t.filter isUpdateCall).length

/-- Predicate for read events (record listing and record fetch) in a trace. -/
def isReadCall : RemoteCall → Bool
  | .listRecords _ _ _ => true
  | .getRecord _ _ => true
  | _ => false

/-- Engine configuration with dry-run disabled. -/
def cfgLive : Config := ⟨false⟩

/-- Remote on which every write succeeds and every zone holds no records. -/
def rmOk : Remote where
  listZonesR := .ok []
  getZoneInfoR := fun _ => .error "no zone"
  listRecordsR := fun _ _ _ => .ok []
  getRecordR := fun _ _ => .error "no record"
  createRecordR := fun _ _ => .ok ()
  updateRecordR := fun _ _ _ => .ok ()
  deleteRecordR := fun _ _ => .ok ()
  refreshZoneR := fun _ => .ok ()

/-- Remote on which every record creation fails. -/
def rmFailCreate : Remote :=
  { rmOk with createRecordR := fun _ _ => .error "boom" }

/-- Remote on which creating the record with target 5.6.7.8 fails and every
other creation succeeds. -/
def rmFailSecond : Remote :=
  { rmOk with createRecordR := fun _ ri =>
      if ri.target == "5.6.7.8" then .error "boom" else .ok () }

/-- Remote holding one A record whose target matches nothing we ask for. -/
def rmOneOther : Remote :=
  { rmOk with
    listRecordsR := fun _ _ _ => .ok [3]
    getRecordR := fun z _ => .ok ⟨3, "A", "www", "9.9.9.9", 300, z⟩ }

/-- Remote holding two records that share subDomain, fieldType and target
and differ only in their ids. -/
def rmTwoSame : Remote :=
  { rmOk with
    listRecordsR := fun _ _ _ => .ok [1, 2]
    getRecordR := fun z i => .ok ⟨i, "A", "www", "1.2.3.4", 300, z⟩ }

/-- An NS record owned by the zone apex: its sub-domain is empty. -/
def nsApex : RecordInfo := ⟨7, "NS", "", "ns1.example.net", 0, "example.com"⟩

/-- Zone metadata for the zone example.com. -/
def ziExample : ZoneInfo := ⟨false, false, "", "example.com", []⟩

/-- Remote with a single zone example.com whose only NS record is owned by
the apex. -/
def rmApexNS : Remote :=
  { rmOk with
    listZonesR := .ok ["example.com"]
    getZoneInfoR := fun _ => .ok ziExample
    listRecordsR := fun _ _ _ => .ok [7]
    getRecordR := fun _ _ => .ok nsApex }

/-- Create request for an A record www with one target. -/
def reqCreateWww : ChangeRequest := ⟨.create, "www", ⟨"A", 300, [⟨"1.2.3.4"⟩]⟩⟩

/-- Create request for an A record api with one target. -/
def reqCreateApi : ChangeRequest := ⟨.create, "api", ⟨"A", 300, [⟨"5.6.7.8"⟩]⟩⟩

/-- Change request whose record set holds zero records. -/
def reqEmptyRset : ChangeRequest := ⟨.create, "www", ⟨"A", 300, []⟩⟩

/-- Remote zone content with one CNAME record set. -/
def zoneStateInput : List RemoteRecordSet := [⟨"foo", "CNAME", 300, ["bar"]⟩]

/-- Predicate for wire write events (POST create, PUT update, DELETE) in a
trace. -/
def isWriteCall : RemoteCall → Bool
  | .createRecord _ _ _ _ _ => true
  | .updateRecord _ _ _ => true
  | .deleteRecord _ _ => true
  | _ => false

/-- Number of wire write calls in a trace. -/
def writeCount (t : List RemoteCall) : Nat := (t.filter isWriteCall).length

/-- Delete request for an A record www with one target. -/
def reqDeleteWww : ChangeRequest := ⟨.delete, "www", ⟨"A", 300, [⟨"1.2.3.4"⟩]⟩⟩

theorem filter_nil_of_all_false {p : RemoteCall → Bool} :
    ∀ {t : List RemoteCall}, (∀ c ∈ t, p c = false) → t.filter p = [] := by
  intro t
  induction t with
  | nil => intro _; rfl
  | cons a t ih =>
    intro h
    rw [List.filter_cons, h a (List.mem_cons_self a t)]
    exact ih (fun c hc => h c (List.mem_cons_of_mem a hc))

theorem read_not_refresh {c : RemoteCall} (h : isReadCall c = true) :
    isRefreshCall c = false := by
  cases c <;> simp [isReadCall, isRefreshCall] at h ⊢

theorem read_not_update {c : RemoteCall} (h : isReadCall c = true) :
    isUpdateCall c = false := by
  cases c <;> simp [isReadCall, isUpdateCall] at h ⊢

theorem read_not_delete {c : RemoteCall} (h : isReadCall c = true) :
    isDeleteCall c = false := by
  cases c <;> simp [isReadCall, isDeleteCall] at h ⊢

theorem fetchRecords_reads (rm : Remote) (zone : String) (ids : List Int) :
    ∀ c ∈ (fetchRecords rm zone ids).2, isReadCall c = true := by
  induction ids with
  | nil => intro c hc; simp [fetchRecords] at hc
  | cons i rest ih =>
    intro c hc
    simp only [fetchRecords] at hc
    cases hg : rm.getRecordR zone i with
    | error e =>
      rw [hg] at hc
      simp at hc
      rw [hc]; rfl
    | ok ri =>
      rw [hg] at hc
      rcases hf : fetchRecords rm zone rest with ⟨res, t⟩
      rw [hf] at hc
      have ht : ∀ c ∈ t, isReadCall c = true := by
        intro c hc
        have := ih c
        rw [hf] at this
        exact this hc
      cases res with
      | error e =>
        simp at hc
        rcases hc with hc | hc
        · rw [hc]; rfl
        · exact ht c hc
      | ok rs =>
        simp at hc
        rcases hc with hc | hc
        · rw [hc]; rfl
        · exact ht c hc

theorem getRecordSets_reads (rm : Remote) (zone subDomain fieldType : String) :
    ∀ c ∈ (getRecordSets rm zone subDomain fieldType).2, isReadCall c = true := by
  intro c hc
  simp only [getRecordSets] at hc
  cases hl : rm.listRecordsR zone subDomain fieldType with
  | error e =>
    rw [hl] at hc
    simp at hc
    rw [hc]; rfl
  | ok ids =>
    rw [hl] at hc
    simp at hc
    rcases hc with hc | hc
    · rw [hc]; rfl
    · exact fetchRecords_reads rm zone ids c hc

theorem getRecordSet_trace (rm : Remote) (zone subDomain value fieldType : String) :
    (getRecordSet rm zone subDomain value fieldType).2 =
      (getRecordSets rm zone subDomain fieldType).2 := by
  simp only [getRecordSet]
  rcases hp : getRecordSets rm zone subDomain fieldType with ⟨res, t⟩
  cases res <;> rfl

theorem getRecordSet_ok (rm : Remote) (zone subDomain value fieldType : String)
    (recs : List RecordInfo)
    (h : (getRecordSets rm zone subDomain fieldType).1 = .ok recs) :
    (getRecordSet rm zone subDomain value fieldType).1 =
      .ok (recs.find? (fun r => r.target == value)) := by
  simp only [getRecordSet]
  rcases hp : getRecordSets rm zone subDomain fieldType with ⟨res, t⟩
  rw [hp] at h
  simp at h
  rw [h]

theorem createRecordSet_calls (rm : Remote) (zone name value fieldType : String) (ttl : Int) :
    ∀ c ∈ (createRecordSet rm zone name value fieldType ttl).2,
      c = RemoteCall.createRecord zone name value fieldType ttl := by
  intro c hc
  simp only [createRecordSet] at hc
  cases hcr : rm.createRecordR zone ⟨0, fieldType, name, value, ttl, ""⟩ with
  | error e => rw [hcr] at hc; simpa using hc
  | ok u => rw [hcr] at hc; simpa using hc

theorem updateRecordSet_calls (rm : Remote) (zone subDomain value fieldType : String)
    (ttl : Int) :
    ∀ c ∈ (updateRecordSet rm zone subDomain value fieldType ttl).2,
      isReadCall c = true ∨ isUpdateCall c = true := by
  intro c hc
  simp only [updateRecordSet] at hc
  rcases hg : getRecordSet rm zone subDomain value fieldType with ⟨res, t⟩
  have ht : ∀ c ∈ t, isReadCall c = true := by
    intro c hc
    have h1 : t = (getRecordSet rm zone subDomain value fieldType).2 := by rw [hg]
    rw [getRecordSet_trace] at h1
    exact getRecordSets_reads rm zone subDomain fieldType c (h1 ▸ hc)
  rw [hg] at hc
  rcases res with e | ro
  · exact Or.inl (ht c (by simpa using hc))
  · rcases ro with _ | rec
    · exact Or.inl (ht c (by simpa using hc))
    · cases hu : rm.updateRecordR zone rec.id ttl with
      | error e =>
        simp [hu] at hc
        rcases hc with hc | hc
        · exact Or.inl (ht c hc)
        · exact Or.inr (by rw [hc]; rfl)
      | ok u =>
        simp [hu] at hc
        rcases hc with hc | hc
        · exact Or.inl (ht c hc)
        · exact Or.inr (by rw [hc]; rfl)

theorem deleteRecordSet_calls (rm : Remote) (zone subDomain value fieldType : String) :
    ∀ c ∈ (deleteRecordSet rm zone subDomain value fieldType).2,
      isReadCall c = true ∨ isDeleteCall c = true := by
  intro c hc
  simp only [deleteRecordSet] at hc
  rcases hg : getRecordSet rm zone subDomain value fieldType with ⟨res, t⟩
  have ht : ∀ c ∈ t, isReadCall c = true := by
    intro c hc
    have h1 : t = (getRecordSet rm zone subDomain value fieldType).2 := by rw [hg]
    rw [getRecordSet_trace] at h1
    exact getRecordSets_reads rm zone subDomain fieldType c (h1 ▸ hc)
  rw [hg] at hc
  rcases res with e | ro
  · exact Or.inl (ht c (by simpa using hc))
  · rcases ro with _ | rec
    · exact Or.inl (ht c (by simpa using hc))
    · cases hd : rm.deleteRecordR zone rec.id with
      | error e =>
        simp [hd] at hc
        rcases hc with hc | hc
        · exact Or.inl (ht c hc)
        · exact Or.inr (by rw [hc]; rfl)
      | ok u =>
        simp [hd] at hc
        rcases hc with hc | hc
        · exact Or.inl (ht c hc)
        · exact Or.inr (by rw [hc]; rfl)

theorem refreshZoneCall_trace (rm : Remote) (zone : String) :
    (refreshZoneCall rm zone).2 = [RemoteCall.refreshZone zone] := by
  simp only [refreshZoneCall]
  cases rm.refreshZoneR zone <;> rfl

theorem dispatchRecord_no_refresh (rm : Remote) (zoneId : String) (act : RAction)
    (name value rtype : String) (ttl : Int) :
    ∀ c ∈ (dispatchRecord rm zoneId act name value rtype ttl).2,
      isRefreshCall c = false := by
  intro c hc
  cases act with
  | create =>
    have := createRecordSet_calls rm zoneId name value rtype ttl c hc
    rw [this]; rfl
  | update =>
    rcases updateRecordSet_calls rm zoneId name value rtype ttl c hc with h | h
    · exact read_not_refresh h
    · cases c <;> simp [isUpdateCall, isRefreshCall] at h ⊢
  | delete =>
    rcases deleteRecordSet_calls rm zoneId name value rtype c hc with h | h
    · exact read_not_refresh h
    · cases c <;> simp [isDeleteCall, isRefreshCall] at h ⊢

theorem execRecords_no_refresh (rm : Remote) (zoneId : String) (act : RAction)
    (name rtype : String) (ttl : Int) :
    ∀ (recs : List DnsRecord) (u : Bool) (k : Nat),
      ∀ c ∈ (execRecords rm zoneId act name rtype ttl u k recs).trace,
        isRefreshCall c = false := by
  intro recs
  induction recs with
  | nil => intro u k c hc; simp [execRecords] at hc
  | cons r rest ih =>
    intro u k c hc
    simp only [execRecords] at hc
    rcases hd : dispatchRecord rm zoneId act name r.value rtype ttl with ⟨res, t⟩
    have ht : ∀ c ∈ t, isRefreshCall c = false := by
      intro c hc
      have h1 : t = (dispatchRecord rm zoneId act name r.value rtype ttl).2 := by rw [hd]
      exact dispatchRecord_no_refresh rm zoneId act name r.value rtype ttl c (h1 ▸ hc)
    rw [hd] at hc
    cases res with
    | error e => exact ht c (by simpa using hc)
    | ok u2 =>
      simp at hc
      rcases hc with hc | hc
      · exact ht c hc
      · exact ih true (k + 1) c hc

theorem execLoop_no_refresh (rm : Remote) (zoneId : String) :
    ∀ (reqs : List ChangeRequest) (u : Bool) (k : Nat),
      ∀ c ∈ (execLoop rm zoneId u k reqs).trace, isRefreshCall c = false := by
  intro reqs
  induction reqs with
  | nil => intro u k c hc; simp [execLoop] at hc
  | cons req rest ih =>
    intro u k c hc
    simp only [execLoop] at hc
    by_cases hemp : (mapToProvider req).2.records.isEmpty
    · simp [hemp] at hc
    · simp only [hemp, if_false] at hc
      rcases hout : (execRecords rm zoneId req.action (alignHostname (mapToProvider req).1)
          (mapToProvider req).2.rtype (mapToProvider req).2.ttl u k
          (mapToProvider req).2.records).exit with _ | _ | e
      all_goals rw [hout] at hc
      · simp at hc
        rcases hc with hc | hc
        · exact execRecords_no_refresh rm zoneId req.action _ _ _ _ u k c hc
        · exact ih _ _ c hc
      · simp at hc
        rcases hc with hc | hc
        · exact execRecords_no_refresh rm zoneId req.action _ _ _ _ u k c hc
        · exact ih _ _ c hc
      · simp at hc
        exact execRecords_no_refresh rm zoneId req.action _ _ _ _ u k c hc

theorem execLoop_refreshCount (rm : Remote) (zoneId : String) (reqs : List ChangeRequest)
    (u : Bool) (k : Nat) : refreshCount (execLoop rm zoneId u k reqs).trace = 0 := by
  unfold refreshCount
  rw [filter_nil_of_all_false (execLoop_no_refresh rm zoneId reqs u k)]
  rfl

theorem execRecords_okW_mono (rm : Remote) (zoneId : String) (act : RAction)
    (name rtype : String) (ttl : Int) :
    ∀ (recs : List DnsRecord) (u : Bool) (k : Nat),
      k ≤ (execRecords rm zoneId act name rtype ttl u k recs).okWrites := by
  intro recs
  induction recs with
  | nil => intro u k; simp [execRecords]
  | cons r rest ih =>
    intro u k
    simp only [execRecords]
    rcases hd : dispatchRecord rm zoneId act name r.value rtype ttl with ⟨res, t⟩
    cases res with
    | error e => simp
    | ok u2 =>
      simp only
      exact le_trans (Nat.le_succ k) (ih true (k + 1))

theorem execRecords_exit_not_abortedOk (rm : Remote) (zoneId : String) (act : RAction)
    (name rtype : String) (ttl : Int) :
    ∀ (recs : List DnsRecord) (u : Bool) (k : Nat),
      (execRecords rm zoneId act name rtype ttl u k recs).exit ≠ LoopExit.abortedOk := by
  intro recs
  induction recs with
  | nil => intro u k; simp [execRecords]
  | cons r rest ih =>
    intro u k
    simp only [execRecords]
    rcases hd : dispatchRecord rm zoneId act name r.value rtype ttl with ⟨res, t⟩
    cases res with
    | error e => simp
    | ok u2 => simpa using ih true (k + 1)

theorem execRecords_cons_err (rm : Remote) (zoneId : String) (act : RAction)
    (name rtype : String) (ttl : Int) (u : Bool) (k : Nat) (r : DnsRecord)
    (rest : List DnsRecord) (e : String) (t : List RemoteCall)
    (hd : dispatchRecord rm zoneId act name r.value rtype ttl = (.error e, t)) :
    execRecords rm zoneId act name rtype ttl u k (r :: rest) =
      ⟨.abortedErr (wrapActionErr act zoneId e), t, true, k⟩ := by
  simp only [execRecords, hd]

theorem execRecords_cons_ok (rm : Remote) (zoneId : String) (act : RAction)
    (name rtype : String) (ttl : Int) (u : Bool) (k : Nat) (r : DnsRecord)
    (rest : List DnsRecord) (t : List RemoteCall)
    (hd : dispatchRecord rm zoneId act name r.value rtype ttl = (.ok (), t)) :
    execRecords rm zoneId act name rtype ttl u k (r :: rest) =
      ⟨(execRecords rm zoneId act name rtype ttl true (k + 1) rest).exit,
       t ++ (execRecords rm zoneId act name rtype ttl true (k + 1) rest).trace,
       (execRecords rm zoneId act name rtype ttl true (k + 1) rest).updated,
       (execRecords rm zoneId act name rtype ttl true (k + 1) rest).okWrites⟩ := by
  simp only [execRecords, hd]

theorem execRecords_completed_okW (rm : Remote) (zoneId : String) (act : RAction)
    (name rtype : String) (ttl : Int) :
    ∀ (recs : List DnsRecord) (u : Bool) (k : Nat),
      (execRecords rm zoneId act name rtype ttl u k recs).exit = LoopExit.completed →
      (execRecords rm zoneId act name rtype ttl u k recs).updated = true →
      u = true ∨ k + 1 ≤ (execRecords rm zoneId act name rtype ttl u k recs).okWrites := by
  intro recs
  cases recs with
  | nil => intro u k _ hu; simp [execRecords] at hu; exact Or.inl hu
  | cons r rest =>
    intro u k hcpl hu
    rcases hd : dispatchRecord rm zoneId act name r.value rtype ttl with ⟨res, t⟩
    cases res with
    | error e =>
      rw [execRecords_cons_err rm zoneId act name rtype ttl u k r rest e t hd] at hcpl
      simp at hcpl
    | ok u2 =>
      rw [execRecords_cons_ok rm zoneId act name rtype ttl u k r rest t hd]
      exact Or.inr (execRecords_okW_mono rm zoneId act name rtype ttl rest true (k + 1))

theorem records_not_empty {req : ChangeRequest}
    (hemp : (mapToProvider req).2.records.isEmpty = false) :
    ¬((mapToProvider req).2.records.isEmpty = true) := by
  rw [hemp]; exact Bool.false_ne_true

theorem execLoop_cons_empty (rm : Remote) (zoneId : String) (u : Bool) (k : Nat)
    (req : ChangeRequest) (rest : List ChangeRequest)
    (hemp : (mapToProvider req).2.records.isEmpty = true) :
    execLoop rm zoneId u k (req :: rest) = ⟨.abortedOk, [], u, k⟩ := by
  simp only [execLoop]
  rw [if_pos hemp]

theorem execLoop_cons_err (rm : Remote) (zoneId : String) (u : Bool) (k : Nat)
    (req : ChangeRequest) (rest : List ChangeRequest) (e : String)
    (hemp : (mapToProvider req).2.records.isEmpty = false)
    (hout : (execRecords rm zoneId req.action (alignHostname (mapToProvider req).1)
        (mapToProvider req).2.rtype (mapToProvider req).2.ttl u k
        (mapToProvider req).2.records).exit = LoopExit.abortedErr e) :
    execLoop rm zoneId u k (req :: rest) =
      ⟨.abortedErr e,
       (execRecords rm zoneId req.action (alignHostname (mapToProvider req).1)
         (mapToProvider req).2.rtype (mapToProvider req).2.ttl u k
         (mapToProvider req).2.records).trace,
       (execRecords rm zoneId req.action (alignHostname (mapToProvider req).1)
         (mapToProvider req).2.rtype (mapToProvider req).2.ttl u k
         (mapToProvider req).2.records).updated,
       (execRecords rm zoneId req.action (alignHostname (mapToProvider req).1)
         (mapToProvider req).2.rtype (mapToProvider req).2.ttl u k
         (mapToProvider req).2.records).okWrites⟩ := by
  simp only [execLoop]
  rw [if_neg (records_not_empty hemp), hout]

theorem execLoop_cons_completed (rm : Remote) (zoneId : String) (u : Bool) (k : Nat)
    (req : ChangeRequest) (rest : List ChangeRequest)
    (hemp : (mapToProvider req).2.records.isEmpty = false)
    (hout : (execRecords rm zoneId req.action (alignHostname (mapToProvider req).1)
        (mapToProvider req).2.rtype (mapToProvider req).2.ttl u k
        (mapToProvider req).2.records).exit = LoopExit.completed) :
    execLoop rm zoneId u k (req :: rest) =
      ⟨(execLoop rm zoneId
          (execRecords rm zoneId req.action (alignHostname (mapToProvider req).1)
            (mapToProvider req).2.rtype (mapToProvider req).2.ttl u k
            (mapToProvider req).2.records).updated
          (execRecords rm zoneId req.action (alignHostname (mapToProvider req).1)
            (mapToProvider req).2.rtype (mapToProvider req).2.ttl u k
            (mapToProvider req).2.records).okWrites rest).exit,
       (execRecords rm zoneId req.action (alignHostname (mapToProvider req).1)
         (mapToProvider req).2.rtype (mapToProvider req).2.ttl u k
         (mapToProvider req).2.records).trace ++
       (execLoop rm zoneId
          (execRecords rm zoneId req.action (alignHostname (mapToProvider req).1)
            (mapToProvider req).2.rtype (mapToProvider req).2.ttl u k
            (mapToProvider req).2.records).updated
          (execRecords rm zoneId req.action (alignHostname (mapToProvider req).1)
            (mapToProvider req).2.rtype (mapToProvider req).2.ttl u k
            (mapToProvider req).2.records).okWrites rest).trace,
       (execLoop rm zoneId
          (execRecords rm zoneId req.action (alignHostname (mapToProvider req).1)
            (mapToProvider req).2.rtype (mapToProvider req).2.ttl u k
            (mapToProvider req).2.records).updated
          (execRecords rm zoneId req.action (alignHostname (mapToProvider req).1)
            (mapToProvider req).2.rtype (mapToProvider req).2.ttl u k
            (mapToProvider req).2.records).okWrites rest).updated,
       (execLoop rm zoneId
          (execRecords rm zoneId req.action (alignHostname (mapToProvider req).1)
            (mapToProvider req).2.rtype (mapToProvider req).2.ttl u k
            (mapToProvider req).2.records).updated
          (execRecords rm zoneId req.action (alignHostname (mapToProvider req).1)
            (mapToProvider req).2.rtype (mapToProvider req).2.ttl u k
            (mapToProvider req).2.records).okWrites rest).okWrites⟩ := by
  simp only [execLoop]
  rw [if_neg (records_not_empty hemp), hout]

theorem execLoop_okW_mono (rm : Remote) (zoneId : String) :
    ∀ (reqs : List ChangeRequest) (u : Bool) (k : Nat),
      k ≤ (execLoop rm zoneId u k reqs).okWrites := by
  intro reqs
  induction reqs with
  | nil => intro u k; simp [execLoop]
  | cons req rest ih =>
    intro u k
    cases hemp : (mapToProvider req).2.records.isEmpty with
    | true => rw [execLoop_cons_empty rm zoneId u k req rest hemp]
    | false =>
      rcases hout : (execRecords rm zoneId req.action (alignHostname (mapToProvider req).1)
          (mapToProvider req).2.rtype (mapToProvider req).2.ttl u k
          (mapToProvider req).2.records).exit with _ | _ | e
      · rw [execLoop_cons_completed rm zoneId u k req rest hemp hout]
        exact le_trans (execRecords_okW_mono rm zoneId req.action _ _ _ _ u k) (ih _ _)
      · exact absurd hout (execRecords_exit_not_abortedOk rm zoneId req.action _ _ _ _ u k)
      · rw [execLoop_cons_err rm zoneId u k req rest e hemp hout]
        exact execRecords_okW_mono rm zoneId req.action _ _ _ _ u k

theorem execLoop_completed_okW (rm : Remote) (zoneId : String) :
    ∀ (reqs : List ChangeRequest) (u : Bool) (k : Nat),
      (execLoop rm zoneId u k reqs).exit = LoopExit.completed →
      (execLoop rm zoneId u k reqs).updated = true →
      u = true ∨ k + 1 ≤ (execLoop rm zoneId u k reqs).okWrites := by
  intro reqs
  induction reqs with
  | nil => intro u k _ hu; simp [execLoop] at hu; exact Or.inl hu
  | cons req rest ih =>
    intro u k hcpl hu
    cases hemp : (mapToProvider req).2.records.isEmpty with
    | true => rw [execLoop_cons_empty rm zoneId u k req rest hemp] at hcpl; simp at hcpl
    | false =>
      rcases hout : (execRecords rm zoneId req.action (alignHostname (mapToProvider req).1)
          (mapToProvider req).2.rtype (mapToProvider req).2.ttl u k
          (mapToProvider req).2.records).exit with _ | _ | e
      · rw [execLoop_cons_completed rm zoneId u k req rest hemp hout] at hcpl hu ⊢
        rcases ih _ _ hcpl hu with h1 | h1
        · rcases execRecords_completed_okW rm zoneId req.action _ _ _
            (mapToProvider req).2.records u k hout h1 with h2 | h2
          · exact Or.inl h2
          · exact Or.inr (le_trans h2 (execLoop_okW_mono rm zoneId rest _ _))
        · refine Or.inr (le_trans ?_ h1)
          have := execRecords_okW_mono rm zoneId req.action
            (alignHostname (mapToProvider req).1) (mapToProvider req).2.rtype
            (mapToProvider req).2.ttl (mapToProvider req).2.records u k
          omega
      · exact absurd hout (execRecords_exit_not_abortedOk rm zoneId req.action _ _ _ _ u k)
      · rw [execLoop_cons_err rm zoneId u k req rest e hemp hout] at hcpl
        simp at hcpl

theorem execLoop_error_absorbs (rm : Remote) (zoneId : String) :
    ∀ (l1 l2 : List ChangeRequest) (u : Bool) (k : Nat) (e : String),
      (execLoop rm zoneId u k l1).exit = LoopExit.abortedErr e →
      execLoop rm zoneId u k (l1 ++ l2) = execLoop rm zoneId u k l1 := by
  intro l1
  induction l1 with
  | nil => intro l2 u k e h; simp [execLoop] at h
  | cons req rest ih =>
    intro l2 u k e h
    cases hemp : (mapToProvider req).2.records.isEmpty with
    | true =>
      rw [execLoop_cons_empty rm zoneId u k req rest hemp] at h
      simp at h
    | false =>
      rcases hout : (execRecords rm zoneId req.action (alignHostname (mapToProvider req).1)
          (mapToProvider req).2.rtype (mapToProvider req).2.ttl u k
          (mapToProvider req).2.records).exit with _ | _ | e2
      · rw [execLoop_cons_completed rm zoneId u k req rest hemp hout] at h
        rw [List.cons_append,
          execLoop_cons_completed rm zoneId u k req (rest ++ l2) hemp hout,
          execLoop_cons_completed rm zoneId u k req rest hemp hout]
        simp only at h
        rw [ih l2 _ _ e h]
      · exact absurd hout (execRecords_exit_not_abortedOk rm zoneId req.action _ _ _ _ u k)
      · rw [List.cons_append,
          execLoop_cons_err rm zoneId u k req (rest ++ l2) e2 hemp hout,
          execLoop_cons_err rm zoneId u k req rest e2 hemp hout]

theorem config_not_dry {cfg : Config} (h : cfg.dryRun = false) :
    ¬(cfg.dryRun = true) := by
  rw [h]; exact Bool.false_ne_true

theorem executeRequests_live (cfg : Config) (rm : Remote) (zoneId : String)
    (reqs : List ChangeRequest) (h : cfg.dryRun = false) :
    executeRequests cfg rm zoneId reqs =
      finishRequests rm zoneId (execLoop rm zoneId false 0 reqs) := by
  simp only [executeRequests]
  rw [if_neg (config_not_dry h)]

theorem finishRequests_err (rm : Remote) (zoneId : String) (lo : LoopOut) (e : String)
    (hx : lo.exit = LoopExit.abortedErr e) :
    finishRequests rm zoneId lo = ⟨some e, lo.trace, lo.okWrites⟩ := by
  simp only [finishRequests, hx]

theorem finishRequests_abortedOk (rm : Remote) (zoneId : String) (lo : LoopOut)
    (hx : lo.exit = LoopExit.abortedOk) :
    finishRequests rm zoneId lo = ⟨none, lo.trace, lo.okWrites⟩ := by
  simp only [finishRequests, hx]

theorem finishRequests_no_update (rm : Remote) (zoneId : String) (lo : LoopOut)
    (hx : lo.exit = LoopExit.completed) (hu : lo.updated = false) :
    finishRequests rm zoneId lo = ⟨none, lo.trace, lo.okWrites⟩ := by
  simp only [finishRequests, hx]
  rw [if_neg (by rw [hu]; exact Bool.false_ne_true)]

theorem refreshCount_append (a b : List RemoteCall) :
    refreshCount (a ++ b) = refreshCount a + refreshCount b := by
  simp [refreshCount, List.filter_append]

theorem finishRequests_update (rm : Remote) (zoneId : String) (lo : LoopOut)
    (hx : lo.exit = LoopExit.completed) (hu : lo.updated = true) :
    (finishRequests rm zoneId lo).trace = lo.trace ++ [RemoteCall.refreshZone zoneId] ∧
    (finishRequests rm zoneId lo).okWrites = lo.okWrites := by
  simp only [finishRequests, hx]
  rw [if_pos hu]
  rcases hrc : refreshZoneCall rm zoneId with ⟨res, t⟩
  have ht : t = [RemoteCall.refreshZone zoneId] := by
    have : t = (refreshZoneCall rm zoneId).2 := by rw [hrc]
    rw [this, refreshZoneCall_trace]
  cases res <;> simp [ht]

/-- C8: for every zone, remote behaviour and sequence of change requests,
when the engine is configured for dry-run, `executeRequests` issues zero
remote calls and returns success immediately. -/
theorem executeRequests_dry_run_no_calls (rm : Remote) (zoneId : String)
    (reqs : List ChangeRequest) :
    executeRequests ⟨true⟩ rm zoneId reqs = ⟨none, [], 0⟩ := rfl

/-- C5 counterexample: a single delete request for a record set that is
absent remotely: the dispatch is a no-op issuing only read calls, yet the
`updated` flag was set before it, so `executeRequests` issues one
refreshZone call although zero wire write calls were issued (let alone
succeeded) in the execution — refuting the claim that zero refreshZone
calls are issued when no write call succeeded. -/
theorem executeRequests_refresh_without_write_cex :
    refreshCount (executeRequests cfgLive rmOneOther "z" [reqDeleteWww]).trace = 1 ∧
    writeCount (executeRequests cfgLive rmOneOther "z" [reqDeleteWww]).trace = 0 ∧
    (executeRequests cfgLive rmOneOther "z" [reqDeleteWww]).trace =
      [RemoteCall.listRecords "z" "www." "A", RemoteCall.getRecord "z" 3,
       RemoteCall.refreshZone "z"] := ⟨rfl, rfl, rfl⟩

/-- C5 amended: in every execution of `executeRequests`, at most one
refreshZone call is issued, and zero refreshZone calls are issued if no
record-level write dispatch completed successfully (the ghost `okWrites`
counter counts such dispatches, which is what the code's `updated` flag
tracks); a dispatch that completes as a no-op — a delete of an absent
record — counts, so a refresh can be issued even though zero wire write
calls were made. -/
theorem executeRequests_refresh_at_most_once (cfg : Config) (rm : Remote)
    (zoneId : String) (reqs : List ChangeRequest) :
    refreshCount (executeRequests cfg rm zoneId reqs).trace ≤ 1 ∧
    ((executeRequests cfg rm zoneId reqs).okWrites = 0 →
      refreshCount (executeRequests cfg rm zoneId reqs).trace = 0) := by
  cases hdry : cfg.dryRun with
  | true =>
    have h : executeRequests cfg rm zoneId reqs = ⟨none, [], 0⟩ := by
      simp [executeRequests, hdry]
    rw [h]
    exact ⟨by simp [refreshCount], fun _ => by simp [refreshCount]⟩
  | false =>
    rw [executeRequests_live cfg rm zoneId reqs hdry]
    have hre : refreshCount (execLoop rm zoneId false 0 reqs).trace = 0 :=
      execLoop_refreshCount rm zoneId reqs false 0
    rcases hexit : (execLoop rm zoneId false 0 reqs).exit with _ | _ | e
    · cases hu : (execLoop rm zoneId false 0 reqs).updated with
      | false =>
        rw [finishRequests_no_update rm zoneId _ hexit hu]
        exact ⟨by simp [hre], fun _ => by simp [hre]⟩
      | true =>
        rcases finishRequests_update rm zoneId _ hexit hu with ⟨htr, hok⟩
        constructor
        · rw [htr, refreshCount_append, hre]
          simp [refreshCount, isRefreshCall]
        · intro h0
          rw [hok] at h0
          rcases execLoop_completed_okW rm zoneId reqs false 0 hexit hu with h1 | h1
          · exact absurd h1 Bool.false_ne_true
          · omega
    · rw [finishRequests_abortedOk rm zoneId _ hexit]
      exact ⟨by simp [hre], fun _ => by simp [hre]⟩
    · rw [finishRequests_err rm zoneId _ e hexit]
      exact ⟨by simp [hre], fun _ => by simp [hre]⟩

/-- Witness for C5: concrete execution with an empty batch, zero successful
writes and zero refresh calls. -/
theorem executeRequests_refresh_at_most_once_witness :
    refreshCount (executeRequests cfgLive rmOk "z" []).trace = 0 :=
  (executeRequests_refresh_at_most_once cfgLive rmOk "z" []).2 rfl

/-- C9: when the request loop fails after at least one successful write
dispatch, `executeRequests` returns the error and its trace contains no
refreshZone call, leaving the already-applied writes unpropagated. -/
theorem executeRequests_error_no_refresh (cfg : Config) (rm : Remote)
    (zoneId : String) (reqs : List ChangeRequest) (e : String)
    (hdry : cfg.dryRun = false)
    (hw : 1 ≤ (execLoop rm zoneId false 0 reqs).okWrites)
    (hexit : (execLoop rm zoneId false 0 reqs).exit = LoopExit.abortedErr e) :
    (executeRequests cfg rm zoneId reqs).err = some e ∧
    refreshCount (executeRequests cfg rm zoneId reqs).trace = 0 := by
  rw [executeRequests_live cfg rm zoneId reqs hdry,
    finishRequests_err rm zoneId _ e hexit]
  exact ⟨rfl, by simpa using execLoop_refreshCount rm zoneId reqs false 0⟩

/-- Witness for C9: the first create succeeds, the second fails; the error
is returned and no refresh is issued. -/
theorem executeRequests_error_no_refresh_witness :
    (executeRequests cfgLive rmFailSecond "z" [reqCreateWww, reqCreateApi]).err =
      some "Create DNS zone record failed for z: Error calling POST record: boom" ∧
    refreshCount
      (executeRequests cfgLive rmFailSecond "z" [reqCreateWww, reqCreateApi]).trace = 0 :=
  executeRequests_error_no_refresh cfgLive rmFailSecond "z" [reqCreateWww, reqCreateApi]
    "Create DNS zone record failed for z: Error calling POST record: boom"
    rfl (by decide) (by decide)

/-- C1 counterexample: with a remote on which every creation fails, a batch
of two create requests stops at the first failure: the trace holds exactly
the one failed create call and no call for the second request, refuting the
claim that subsequent requests are still attempted. -/
theorem executeRequests_not_best_effort_cex :
    executeRequests cfgLive rmFailCreate "z" [reqCreateWww, reqCreateApi] =
      ⟨some "Create DNS zone record failed for z: Error calling POST record: boom",
       [RemoteCall.createRecord "z" "www." "1.2.3.4" "A" 300], 0⟩ := by
  decide

/-- C1 amended: when a remote call for one request fails, `executeRequests`
returns that first error immediately and the remaining requests are not
attempted: the outcome over `reqs ++ post` is independent of `post`. -/
theorem executeRequests_fail_fast (cfg : Config) (rm : Remote) (zoneId : String)
    (reqs post : List ChangeRequest) (e : String)
    (hdry : cfg.dryRun = false)
    (hexit : (execLoop rm zoneId false 0 reqs).exit = LoopExit.abortedErr e) :
    executeRequests cfg rm zoneId (reqs ++ post) =
      ⟨some e, (execLoop rm zoneId false 0 reqs).trace,
       (execLoop rm zoneId false 0 reqs).okWrites⟩ := by
  rw [executeRequests_live cfg rm zoneId (reqs ++ post) hdry,
    execLoop_error_absorbs rm zoneId reqs post false 0 e hexit,
    finishRequests_err rm zoneId _ e hexit]

/-- Witness for the amended C1: one failing create followed by an
unprocessed create request. -/
theorem executeRequests_fail_fast_witness :
    executeRequests cfgLive rmFailCreate "z" ([reqCreateWww] ++ [reqCreateApi]) =
      ⟨some "Create DNS zone record failed for z: Error calling POST record: boom",
       [RemoteCall.createRecord "z" "www." "1.2.3.4" "A" 300], 0⟩ := by
  rw [executeRequests_fail_fast cfgLive rmFailCreate "z" [reqCreateWww] [reqCreateApi]
    "Create DNS zone record failed for z: Error calling POST record: boom"
    rfl (by decide)]
  decide

/-- C3: evaluation of the code at the failing input: a request whose mapped
record set has zero records makes `executeRequests` return success
immediately with zero remote calls, so the following create request is
never dispatched (the claim and the spec say it would still be processed). -/
theorem executeRequests_empty_rset_aborts_batch :
    executeRequests cfgLive rmOk "z" [reqEmptyRset, reqCreateApi] = ⟨none, [], 0⟩ := by
  decide

theorem getRecordSets_updateCount (rm : Remote) (zone sub ft : String) :
    updateCount (getRecordSets rm zone sub ft).2 = 0 := by
  unfold updateCount
  rw [filter_nil_of_all_false
    (fun c hc => read_not_update (getRecordSets_reads rm zone sub ft c hc))]
  rfl

theorem getRecordSets_deleteCount (rm : Remote) (zone sub ft : String) :
    deleteCount (getRecordSets rm zone sub ft).2 = 0 := by
  unfold deleteCount
  rw [filter_nil_of_all_false
    (fun c hc => read_not_delete (getRecordSets_reads rm zone sub ft c hc))]
  rfl

theorem deleteCount_append (a b : List RemoteCall) :
    deleteCount (a ++ b) = deleteCount a + deleteCount b := by
  simp [deleteCount, List.filter_append]

/-- C2 counterexample: the remote holds one A record at www whose target is
not the requested value, so the lookup by (subDomain, fieldType, target)
finds no matching record; `updateRecordSet` surfaces a could-not-find-record
error instead of returning success. -/
theorem updateRecordSet_absent_record_cex :
    updateRecordSet rmOneOther "z" "www" "1.2.3.4" "A" 300 =
      (.error (updateMissingMsg "z" "www" "A"),
       [RemoteCall.listRecords "z" "www" "A", RemoteCall.getRecord "z" 3]) := rfl

/-- C2 amended: for every update request whose target record does not exist
remotely, `updateRecordSet` issues no updateRecord call but returns a
could-not-find-record error (the error is surfaced, not swallowed). -/
theorem updateRecordSet_absent_record_errors (rm : Remote)
    (zone sub value ft : String) (ttl : Int) (recs : List RecordInfo)
    (hls : (getRecordSets rm zone sub ft).1 = .ok recs)
    (hfind : recs.find? (fun r => r.target == value) = none) :
    (updateRecordSet rm zone sub value ft ttl).1 =
      .error (updateMissingMsg zone sub ft) ∧
    updateCount (updateRecordSet rm zone sub value ft ttl).2 = 0 := by
  have h1 := getRecordSet_ok rm zone sub value ft recs hls
  rw [hfind] at h1
  have h2 := getRecordSet_trace rm zone sub value ft
  rcases hp : getRecordSet rm zone sub value ft with ⟨res, t⟩
  rw [hp] at h1 h2
  simp only at h1 h2
  subst h1
  constructor
  · simp only [updateRecordSet, hp]
  · simp only [updateRecordSet, hp]
    rw [h2]
    exact getRecordSets_updateCount rm zone sub ft

/-- Witness for the amended C2: empty remote zone, the update returns the
could-not-find-record error and issues zero updateRecord calls. -/
theorem updateRecordSet_absent_record_errors_witness :
    (updateRecordSet rmOk "z" "www" "1.2.3.4" "A" 300).1 =
      .error (updateMissingMsg "z" "www" "A") ∧
    updateCount (updateRecordSet rmOk "z" "www" "1.2.3.4" "A" 300).2 = 0 :=
  updateRecordSet_absent_record_errors rmOk "z" "www" "1.2.3.4" "A" 300 [] rfl rfl

/-- C6: for every delete request targeting a record that does not exist
remotely (the lookup by subDomain, fieldType and target finds no matching
record), `deleteRecordSet` returns success and issues zero DELETE calls. -/
theorem deleteRecordSet_absent_record_noop (rm : Remote)
    (zone sub value ft : String) (recs : List RecordInfo)
    (hls : (getRecordSets rm zone sub ft).1 = .ok recs)
    (hfind : recs.find? (fun r => r.target == value) = none) :
    (deleteRecordSet rm zone sub value ft).1 = .ok () ∧
    deleteCount (deleteRecordSet rm zone sub value ft).2 = 0 := by
  have h1 := getRecordSet_ok rm zone sub value ft recs hls
  rw [hfind] at h1
  have h2 := getRecordSet_trace rm zone sub value ft
  rcases hp : getRecordSet rm zone sub value ft with ⟨res, t⟩
  rw [hp] at h1 h2
  simp only at h1 h2
  subst h1
  constructor
  · simp only [deleteRecordSet, hp]
  · simp only [deleteRecordSet, hp]
    rw [h2]
    exact getRecordSets_deleteCount rm zone sub ft

/-- Witness for C6: the remote holds one record whose target differs from
the requested value; the delete succeeds with zero DELETE calls. -/
theorem deleteRecordSet_absent_record_noop_witness :
    (deleteRecordSet rmOneOther "z" "www" "1.2.3.4" "A").1 = .ok () ∧
    deleteCount (deleteRecordSet rmOneOther "z" "www" "1.2.3.4" "A").2 = 0 :=
  deleteRecordSet_absent_record_noop rmOneOther "z" "www" "1.2.3.4" "A"
    [⟨3, "A", "www", "9.9.9.9", 300, "z"⟩] rfl rfl

/-- C10: every `deleteRecordSet` call issues at most one DELETE, and when
the lookup finds a first record (in remote listing order) whose target
equals the requested value, exactly that record's id is deleted — even when
several remote records share (subDomain, fieldType, target). -/
theorem deleteRecordSet_first_match_only (rm : Remote)
    (zone sub value ft : String) :
    deleteCount (deleteRecordSet rm zone sub value ft).2 ≤ 1 ∧
    (∀ (recs : List RecordInfo) (r0 : RecordInfo),
      (getRecordSets rm zone sub ft).1 = .ok recs →
      recs.find? (fun r => r.target == value) = some r0 →
      (deleteRecordSet rm zone sub value ft).2.filter isDeleteCall =
        [RemoteCall.deleteRecord zone r0.id]) := by
  have h2 := getRecordSet_trace rm zone sub value ft
  rcases hp : getRecordSet rm zone sub value ft with ⟨res, t⟩
  rw [hp] at h2
  simp only at h2
  have ht : t.filter isDeleteCall = [] := by
    refine filter_nil_of_all_false ?_
    intro c hc
    exact read_not_delete (getRecordSets_reads rm zone sub ft c (h2 ▸ hc))
  constructor
  · cases res with
    | error e =>
      simp only [deleteRecordSet, hp, deleteCount]
      rw [ht]
      exact Nat.zero_le 1
    | ok ro =>
      cases ro with
      | none =>
        simp only [deleteRecordSet, hp, deleteCount]
        rw [ht]
        exact Nat.zero_le 1
      | some rec =>
        cases hd : rm.deleteRecordR zone rec.id with
        | error e =>
          simp only [deleteRecordSet, hp, hd, deleteCount]
          rw [List.filter_append, ht]
          simp [isDeleteCall]
        | ok u =>
          simp only [deleteRecordSet, hp, hd, deleteCount]
          rw [List.filter_append, ht]
          simp [isDeleteCall]
  · intro recs r0 hls hfind
    have h1 := getRecordSet_ok rm zone sub value ft recs hls
    rw [hfind, hp] at h1
    simp only at h1
    subst h1
    cases hd : rm.deleteRecordR zone r0.id with
    | error e =>
      simp only [deleteRecordSet, hp, hd]
      rw [List.filter_append, ht]
      simp [isDeleteCall]
    | ok u =>
      simp only [deleteRecordSet, hp, hd]
      rw [List.filter_append, ht]
      simp [isDeleteCall]

/-- Witness for C10: two remote records share (subDomain, fieldType,
target); exactly the first listed id is deleted. -/
theorem deleteRecordSet_first_match_only_witness :
    deleteCount (deleteRecordSet rmTwoSame "z" "www" "1.2.3.4" "A").2 ≤ 1 ∧
    (deleteRecordSet rmTwoSame "z" "www" "1.2.3.4" "A").2.filter isDeleteCall =
      [RemoteCall.deleteRecord "z" 1] :=
  ⟨(deleteRecordSet_first_match_only rmTwoSame "z" "www" "1.2.3.4" "A").1,
   (deleteRecordSet_first_match_only rmTwoSame "z" "www" "1.2.3.4" "A").2
     [⟨1, "A", "www", "1.2.3.4", 300, "z"⟩, ⟨2, "A", "www", "1.2.3.4", 300, "z"⟩]
     ⟨1, "A", "www", "1.2.3.4", 300, "z"⟩ rfl rfl⟩

theorem forwardedNames_eq (records : List RecordInfo) (apex : String) :
    forwardedNames records apex =
      (records.filter (fun r => r.subDomain ++ "." ++ r.zone != apex)).map
        (fun r => normalizeHostname (r.subDomain ++ "." ++ r.zone)) := by
  induction records with
  | nil => rfl
  | cons r rest ih =>
    simp only [forwardedNames, List.filter_cons]
    by_cases h : (r.subDomain ++ "." ++ r.zone != apex) = true
    · rw [if_pos h, if_pos h, List.map_cons, ih]
    · rw [if_neg h, if_neg h, ih]

theorem buildHostedZones_forwarded (rm : Remote) :
    ∀ (zl : List ZoneInfo) (zs : List DNSHostedZone) (hz : DNSHostedZone),
      buildHostedZones rm zl = .ok zs → hz ∈ zs →
      ∃ recs, (getRecordSets rm hz.id "" "NS").1 = .ok recs ∧
        hz.forwarded =
          (recs.filter (fun r => r.subDomain ++ "." ++ r.zone != hz.id)).map
            (fun r => normalizeHostname (r.subDomain ++ "." ++ r.zone)) := by
  intro zl
  induction zl with
  | nil =>
    intro zs hz h hm
    simp only [buildHostedZones] at h
    simp at h
    subst h
    simp at hm
  | cons z rest ih =>
    intro zs hz h hm
    simp only [buildHostedZones] at h
    cases hg : (getRecordSets rm z.name "" "NS").1 with
    | error e => rw [hg] at h; simp at h
    | ok records =>
      rw [hg] at h
      cases hb : buildHostedZones rm rest with
      | error e => rw [hb] at h; simp at h
      | ok hzs =>
        rw [hb] at h
        simp at h
        subst h
        rcases List.mem_cons.mp hm with hm | hm
        · subst hm
          exact ⟨records, hg, forwardedNames_eq records z.name⟩
        · exact ih hzs hz hb hm

/-- C4 counterexample: zone example.com holds a single NS record owned by
the zone apex (empty sub-domain); `handlerGetZones` still derives a
forwarded name from it (the normalization of ".example.com"), while the
spec-side reading (`specForwardedNames`, normalized owner names of NS
records whose owner differs from the apex) predicts the empty list. -/
theorem getZones_apex_ns_cex :
    handlerGetZones rmApexNS =
      .ok [⟨"ovhcloud-dns", "example.com", "example.com.", "example.com",
            [".example.com."], false⟩] ∧
    specForwardedNames [nsApex] "example.com" = [] := ⟨rfl, rfl⟩

/-- C4 amended: for every zone returned by `handlerGetZones`, the forwarded
list contains exactly the normalizations of the concatenated names
subDomain ++ "." ++ zone of the zone's NS records, for those records whose
concatenated name differs from the zone apex name; an NS record with empty
sub-domain yields "." ++ apex, which differs from the apex, so apex-owned
NS records do contribute a forwarded name. -/
theorem getZones_forwarded_names (rm : Remote) (zs : List DNSHostedZone)
    (hz : DNSHostedZone) (recs : List RecordInfo)
    (h : handlerGetZones rm = .ok zs) (hm : hz ∈ zs)
    (hg : (getRecordSets rm hz.id "" "NS").1 = .ok recs) :
    hz.forwarded =
      (recs.filter (fun r => r.subDomain ++ "." ++ r.zone != hz.id)).map
        (fun r => normalizeHostname (r.subDomain ++ "." ++ r.zone)) := by
  simp only [handlerGetZones] at h
  cases ha : accessGetZones rm with
  | error e => rw [ha] at h; simp at h
  | ok zones =>
    rw [ha] at h
    rcases buildHostedZones_forwarded rm zones zs hz h hm with ⟨recs2, hg2, hfwd⟩
    rw [hg] at hg2
    have : recs2 = recs := by
      have := Except.ok.inj hg2
      exact this.symm
    rw [hfwd, this]

/-- Witness for the amended C4 at the concrete apex-NS zone. -/
theorem getZones_forwarded_names_witness :
    ([".example.com."] : List String) =
      ([nsApex].filter (fun r => r.subDomain ++ "." ++ r.zone != "example.com")).map
        (fun r => normalizeHostname (r.subDomain ++ "." ++ r.zone)) :=
  getZones_forwarded_names rmApexNS
    [⟨"ovhcloud-dns", "example.com", "example.com.", "example.com",
      [".example.com."], false⟩]
    ⟨"ovhcloud-dns", "example.com", "example.com.", "example.com",
      [".example.com."], false⟩
    [nsApex] rfl (List.mem_singleton.mpr rfl) rfl

theorem getZoneStateLoop_mem (l : List RemoteRecordSet) :
    ∀ (sets : List (String × RecordSet)) (n : String) (rs : RecordSet),
      (n, rs) ∈ getZoneStateLoop sets l →
      (n, rs) ∈ sets ∨
        ∃ r ∈ l, supportedType r.rtype = true ∧ n = normalizeHostname r.name ∧
          rs = convertRecordSet r := by
  induction l with
  | nil =>
    intro sets n rs h
    exact Or.inl (by simpa [getZoneStateLoop] using h)
  | cons r rest ih =>
    intro sets n rs h
    simp only [getZoneStateLoop] at h
    by_cases hs : supportedType r.rtype = true
    · rw [if_pos hs] at h
      rcases ih _ n rs h with hmem | ⟨r2, hr2, hsup, hn, hrs⟩
      · simp only [addRecordSetFromProvider] at hmem
        rcases List.mem_append.mp hmem with hmem | hmem
        · exact Or.inl (List.mem_of_mem_filter hmem)
        · have heq := List.mem_singleton.mp hmem
          have h1 : n = normalizeHostname r.name := congrArg Prod.fst heq
          have h2 : rs = convertRecordSet r := congrArg Prod.snd heq
          exact Or.inr ⟨r, List.mem_cons_self r rest, hs, h1, h2⟩
      · exact Or.inr ⟨r2, List.mem_cons_of_mem r hr2, hsup, hn, hrs⟩
    · rw [if_neg hs] at h
      rcases ih sets n rs h with hmem | ⟨r2, hr2, hsup, hn, hrs⟩
      · exact Or.inl hmem
      · exact Or.inr ⟨r2, List.mem_cons_of_mem r hr2, hsup, hn, hrs⟩

/-- C7: every keyed record set in the DNSSet collection returned by
`getZoneState` has type A, CNAME or TXT (excluded types never appear) and
stems from a supported remote record set at the normalized owner name; its
values are the source values normalized when the type is CNAME and verbatim
otherwise. -/
theorem getZoneState_supported_types (input : List RemoteRecordSet) (n : String)
    (rs : RecordSet) (h : (n, rs) ∈ getZoneState input) :
    supportedType rs.rtype = true ∧
    ∃ r ∈ input, r.rtype = rs.rtype ∧ n = normalizeHostname r.name ∧
      (rs.rtype = "CNAME" →
        rs.records = r.records.map (fun v => ⟨normalizeHostname v⟩)) ∧
      (rs.rtype ≠ "CNAME" → rs.records = r.records.map (fun v => ⟨v⟩)) := by
  rcases getZoneStateLoop_mem input [] n rs h with hmem | ⟨r, hr, hsup, hn, hrs⟩
  · simp at hmem
  · subst hrs
    refine ⟨hsup, r, hr, rfl, hn, ?_, ?_⟩
    · intro hcn
      have hcn2 : r.rtype = "CNAME" := hcn
      simp [convertRecordSet, hcn2]
    · intro hcn
      have hcn2 : r.rtype ≠ "CNAME" := hcn
      simp [convertRecordSet, hcn2]

/-- Witness for C7: a remote CNAME record set at foo with value bar yields
the normalized key and the normalized value. -/
theorem getZoneState_supported_types_witness :
    supportedType (⟨"CNAME", 300, [⟨"bar."⟩]⟩ : RecordSet).rtype = true ∧
    ∃ r ∈ zoneStateInput,
      r.rtype = (⟨"CNAME", 300, [⟨"bar."⟩]⟩ : RecordSet).rtype ∧
      "foo." = normalizeHostname r.name ∧
      ((⟨"CNAME", 300, [⟨"bar."⟩]⟩ : RecordSet).rtype = "CNAME" →
        (⟨"CNAME", 300, [⟨"bar."⟩]⟩ : RecordSet).records =
          r.records.map (fun v => ⟨normalizeHostname v⟩)) ∧
      ((⟨"CNAME", 300, [⟨"bar."⟩]⟩ : RecordSet).rtype ≠ "CNAME" →
        (⟨"CNAME", 300, [⟨"bar."⟩]⟩ : RecordSet).records =
          r.records.map (fun v => ⟨v⟩)) :=
  getZoneState_supported_types zoneStateInput "foo." ⟨"CNAME", 300, [⟨"bar."⟩]⟩
    (by decide)

end OvhDNS
